import Mathlib

/-!
# UK city clicker: the scoring functions and the round state of `UKMapGame`

A shallow embedding of `src/city-clicker/src/UKMapGame.jsx`.

* JavaScript numbers that hold the result of a floating-point computation
  (coordinates, distances, points, the running total) are `Float`, the IEEE-754
  binary64 type; `Math.sin`, `Math.cos`, `Math.atan2`, `Math.sqrt`, `Math.exp`
  are the corresponding `Float` functions.  The logic has no equations for these
  operations, so the theorems below never compute with them: they hold for the
  expressions the component builds, whatever the operations return.
* `roundsPlayed` only ever counts; it is a `Nat`.
* The React state of the component is the record `GameState`; an event handler
  maps the state of the render that created it to the next state (all setters of
  one handler call are applied together).
* `cities` (module `./cities`, not part of the sources) is a parameter, and the
  outcome of `Math.floor(Math.random() * cities.length)` is passed in as an index
  into it.
* Reading a property of `null` throws a `TypeError`; a handler that throws is
  `none`.
-/

namespace UKMapGame

/-! ## Geo scoring functions -/

/-- The constant `Math.PI`. -/
def PI : Float := 3.141592653589793

/-- The helper `toRad` of `haversineDistance`: `(deg * Math.PI) / 180`. -/
def toRad (deg : Float) : Float := (deg * PI) / 180

/-- Haversine formula, distance in km (source lines 36-45). -/
def haversineDistance (lat1 lon1 lat2 lon2 : Float) : Float :=
  let R : Float := 6371
  let dLat := toRad (lat2 - lat1)
  let dLon := toRad (lon2 - lon1)
  let a :=
    Float.pow (Float.sin (dLat / 2)) 2 +
      Float.cos (toRad lat1) * Float.cos (toRad lat2) * Float.pow (Float.sin (dLon / 2)) 2
  R * 2 * Float.atan2 (Float.sqrt a) (Float.sqrt (1 - a))

/-- The builtin `Math.round`: the nearest integer, a tie going up. (The fractional part
`x - floor x` is exact; `NaN` and the infinities are returned unchanged. The sign of a
zero result is not tracked.) -/
def mathRound (x : Float) : Float :=
  let f := Float.floor x
  if x - f >= 0.5 then f + 1 else f

/-- The builtin `Math.max` on two arguments: `NaN` when either is `NaN`. -/
def mathMax (a b : Float) : Float :=
  if a.isNaN || b.isNaN then 0 / 0 else if a < b then b else a

/-- Exponential decay scoring function (source lines 48-63), with the default values of
`threshold`, `maxScore` and `decayRate`. -/
def exponentialDecayScore (distance : Float) (threshold : Float := 10)
    (maxScore : Float := 500) (decayRate : Float := 0.035) : Float :=
  if distance <= threshold then
    maxScore
  else
    let distanceBeyondThreshold := distance - threshold
    let score := mathRound (maxScore * Float.exp (-decayRate * distanceBeyondThreshold))
    mathMax 0 score

/-- The builtin `Number.prototype.toFixed` at 0 digits: the decimal digits of the nearest
integer, a tie going away from zero, after a minus sign for a negative number. Written for
`NaN` and for finite numbers of magnitude below `2^64` (a distance is below 20016). -/
def toFixed0 (x : Float) : String :=
  if x.isNaN then "NaN"
  else if x < 0 then "-" ++ toString (Float.round (-x)).toUInt64
  else toString (Float.round x).toUInt64

/-! ## Data -/

/-- An entry of `cities`: the fields the component reads. -/
structure City where
  name : String
  lat : Float
  lon : Float

/-- The `latlng` of a map click: the fields the component reads. -/
structure LatLng where
  lat : Float
  lng : Float

/-- The `score` property of a table row: a string (the `""` of an empty row) or a number
(the points of a played round). -/
inductive ScoreCell where
  | str (s : String)
  | num (points : Float)

/-- A row of the rounds table, `{ city, distance, score }`. -/
structure Round where
  city : String
  distance : String
  score : ScoreCell

/-- The row `{ city: "", distance: "", score: "" }` of an empty table. -/
def emptyRound : Round := { city := "", distance := "", score := .str "" }

/-- The eight `useState` cells of `UKMapGame`. -/
structure GameState where
  targetCity : City
  guess : Option LatLng
  score : Float
  lockedIn : Bool
  totalScore : Float
  roundsPlayed : Nat
  gameOver : Bool
  rounds : List Round

/-- The expression `cities[Math.floor(Math.random() * cities.length)]`, the index being
the value of `Math.floor(Math.random() * cities.length)`. -/
def randomCity (cities : List City) (i : Fin cities.length) : City := cities.get i

/-- The initial values of the state cells (source lines 95-106). -/
def initialState (cities : List City) (i : Fin cities.length) : GameState :=
  { targetCity := randomCity cities i
    guess := none
    score := 0
    lockedIn := false
    totalScore := 0
    roundsPlayed := 0
    gameOver := false
    rounds := List.replicate 10 emptyRound }

/-! ## Event handlers -/

/-- The handler `handleMapClick` (source lines 108-112). -/
def handleMapClick (s : GameState) (latlng : LatLng) : GameState :=
  if !s.lockedIn then { s with guess := some latlng } else s

/-- The handler `resetGame` (source lines 114-123). -/
def resetGame (cities : List City) (i : Fin cities.length) (s : GameState) : GameState :=
  { s with
    rounds := List.replicate 10 emptyRound
    roundsPlayed := 0
    totalScore := 0
    gameOver := false
    lockedIn := false
    guess := none
    score := 0
    targetCity := randomCity cities i }

/-- The updater passed to `setRounds` in `lockInGuess` (source lines 146-151): copy the
array, `pop` the last entry, `unshift` the new round. -/
def pushRound (newRound : Round) (prevRounds : List Round) : List Round :=
  newRound :: prevRounds.dropLast

/-- The handler `lockInGuess` (source lines 125-156). It reads `guess.lat` first, which
throws when `guess` is `null`. -/
def lockInGuess (s : GameState) : Option GameState :=
  match s.guess with
  | none => none
  | some guess =>
    let distance := haversineDistance guess.lat guess.lng s.targetCity.lat s.targetCity.lon
    let points := exponentialDecayScore distance
    let newRound : Round :=
      { city := s.targetCity.name, distance := toFixed0 distance, score := .num points }
    some { s with
      score := points
      totalScore := s.totalScore + points
      lockedIn := true
      roundsPlayed := s.roundsPlayed + 1
      rounds := pushRound newRound s.rounds
      gameOver := if s.roundsPlayed + 1 >= 10 then true else s.gameOver }

/-- The handler `handleNewCity` (source lines 158-167). -/
def handleNewCity (cities : List City) (i : Fin cities.length) (s : GameState) : GameState :=
  if s.gameOver then
    resetGame cities i s
  else
    { s with
      targetCity := randomCity cities i
      lockedIn := false
      guess := none
      score := 0 }

/-! ## The controls that call the handlers -/

/-- The component `ClickHandler` (source lines 66-76): a map click reaches `onClick`,
which is `handleMapClick`, only while the guess is not locked. -/
def clickHandler (s : GameState) (latlng : LatLng) : GameState :=
  if !s.lockedIn then handleMapClick s latlng else s

/-- A click on the button "Lock In Guess" (source lines 208-210): the button is
`disabled={lockedIn || !guess}`, and a disabled button does not call its `onClick`. -/
def lockInButton (s : GameState) : Option GameState :=
  if s.lockedIn || s.guess.isNone then some s else lockInGuess s

/-- A click on the button "New City" (source lines 211-213), which is
`disabled={!lockedIn || gameOver}`. -/
def newCityButton (cities : List City) (i : Fin cities.length) (s : GameState) : GameState :=
  if !s.lockedIn || s.gameOver then s else handleNewCity cities i s

/-! ## Reachable states -/

/-- The states of the component, with the number of lock-ins made in the current game.
`Reach cities n s`: some sequence of map clicks, clicks on "Lock In Guess", calls of
`handleNewCity` and calls of `resetGame` leads from an initial state to `s`, and `n` clicks
on the enabled "Lock In Guess" button were made since the game was last reset (by
`resetGame`, or by `handleNewCity` when the game was over). `handleNewCity` is taken
without the guard of its button, which only allows more. -/
inductive Reach (cities : List City) : Nat → GameState → Prop where
  | init (i : Fin cities.length) : Reach cities 0 (initialState cities i)
  | mapClick {n : Nat} {s : GameState} (latlng : LatLng) :
      Reach cities n s → Reach cities n (handleMapClick s latlng)
  | lockIn {n : Nat} {s s' : GameState} (g : LatLng) :
      Reach cities n s → s.lockedIn = false → s.guess = some g →
      lockInButton s = some s' → Reach cities (n + 1) s'
  | lockInDisabled {n : Nat} {s s' : GameState} :
      Reach cities n s → (s.guess = none ∨ s.lockedIn = true) →
      lockInButton s = some s' → Reach cities n s'
  | newCity {n : Nat} {s : GameState} (i : Fin cities.length) :
      Reach cities n s → s.gameOver = false → Reach cities n (handleNewCity cities i s)
  | newCityOver {n : Nat} {s : GameState} (i : Fin cities.length) :
      Reach cities n s → s.gameOver = true → Reach cities 0 (handleNewCity cities i s)
  | reset {n : Nat} {s : GameState} (i : Fin cities.length) :
      Reach cities n s → Reach cities 0 (resetGame cities i s)

/-- The sum of the points in a table, newest row first: the points are added oldest
first, the order in which `setTotalScore` added them, and a row whose `score` is not a
number adds nothing. -/
def pointsTotal : List Round → Float
  | [] => 0
  | r :: older =>
    match r.score with
    | .num points => pointsTotal older + points
    | .str _ => pointsTotal older

/-- What the handlers keep true of a state in which `n` lock-ins were made in the current
game. -/
structure Inv (n : Nat) (s : GameState) : Prop where
  roundsPlayed_eq : s.roundsPlayed = n
  le_ten : n ≤ 10
  gameOver_iff : s.gameOver = true ↔ n = 10
  locked_at_ten : n = 10 → s.lockedIn = true
  table : ∃ played : List Round, played.length = n ∧
    s.rounds = played ++ List.replicate (10 - n) emptyRound ∧
    s.totalScore = pointsTotal played

/-- One round on a state: `handleNewCity`, a map click, a click on "Lock In Guess". -/
def playRound (cities : List City) (i : Fin cities.length) (latlng : LatLng)
    (s : GameState) : GameState :=
  (lockInButton (handleMapClick (handleNewCity cities i s) latlng)).getD s

/-! ## Sample data -/

/-- A sample city. -/
def london : City := { name := "London", lat := 51.5074, lon := -0.1278 }

/-- A sample city. -/
def edinburgh : City := { name := "Edinburgh", lat := 55.9533, lon := -3.1883 }

/-- A sample reference list. -/
def sampleCities : List City := [london, edinburgh]

/-- A sample click. -/
def sampleClick : LatLng := { lat := 52.0, lng := -1.5 }

/-- The state of a fresh game on `sampleCities` with target London, after one map click. -/
def sampleGuessed : GameState :=
  handleMapClick (initialState sampleCities ⟨0, by decide⟩) sampleClick

/-- The state after ten rounds on `sampleCities`, each with target Edinburgh and the
click `sampleClick`. -/
def sampleFinished : GameState :=
  (playRound sampleCities ⟨1, by decide⟩ sampleClick)^[10]
    (initialState sampleCities ⟨0, by decide⟩)

/-! ## Lock-in -/

/-- The state `lockInGuess` returns when the guess is `g`, written out. -/
theorem lockInGuess_of_guess (s : GameState) (g : LatLng) (hg : s.guess = some g) :
    lockInGuess s = some
      { s with
        score := exponentialDecayScore
          (haversineDistance g.lat g.lng s.targetCity.lat s.targetCity.lon)
        totalScore := s.totalScore + exponentialDecayScore
          (haversineDistance g.lat g.lng s.targetCity.lat s.targetCity.lon)
        lockedIn := true
        roundsPlayed := s.roundsPlayed + 1
        rounds := pushRound
          { city := s.targetCity.name
            distance := toFixed0
              (haversineDistance g.lat g.lng s.targetCity.lat s.targetCity.lon)
            score := .num (exponentialDecayScore
              (haversineDistance g.lat g.lng s.targetCity.lat s.targetCity.lon)) }
          s.rounds
        gameOver := if s.roundsPlayed + 1 >= 10 then true else s.gameOver } := by
  simp only [lockInGuess, hg]

/-- The enabled button calls the handler. -/
theorem lockInButton_enabled (s : GameState) (g : LatLng)
    (hg : s.guess = some g) (hl : s.lockedIn = false) :
    lockInButton s = lockInGuess s := by
  simp [lockInButton, hg, hl]

/-- The disabled button leaves the state as it is. -/
theorem lockInButton_disabled (s : GameState)
    (h : s.guess = none ∨ s.lockedIn = true) : lockInButton s = some s := by
  rcases h with h | h <;> simp [lockInButton, h]

/-- C1: in a state with a pending guess `g` that is not locked, `lockInGuess` (and so the
button that calls it) returns a state whose `roundsPlayed` is the old one plus 1, whose
`totalScore` is the old one plus `exponentialDecayScore` (default parameters) of the
`haversineDistance` from `g` to the target city, whose `score` is that same value, and
which is locked. -/
theorem lockInGuess_adds_score (s : GameState) (g : LatLng)
    (hg : s.guess = some g) (hl : s.lockedIn = false) :
    ∃ s', lockInGuess s = some s' ∧ lockInButton s = some s' ∧
      s'.roundsPlayed = s.roundsPlayed + 1 ∧
      s'.totalScore = s.totalScore +
        exponentialDecayScore
          (haversineDistance g.lat g.lng s.targetCity.lat s.targetCity.lon) ∧
      s'.score =
        exponentialDecayScore
          (haversineDistance g.lat g.lng s.targetCity.lat s.targetCity.lon) ∧
      s'.lockedIn = true :=
  ⟨_, lockInGuess_of_guess s g hg,
    (lockInButton_enabled s g hg hl).trans (lockInGuess_of_guess s g hg),
    rfl, rfl, rfl, rfl⟩

/-- Witness of C1 at `sampleGuessed`. -/
theorem lockInGuess_adds_score_witness :
    ∃ s', lockInGuess sampleGuessed = some s' ∧ lockInButton sampleGuessed = some s' ∧
      s'.roundsPlayed = sampleGuessed.roundsPlayed + 1 ∧
      s'.totalScore = sampleGuessed.totalScore +
        exponentialDecayScore
          (haversineDistance sampleClick.lat sampleClick.lng
            sampleGuessed.targetCity.lat sampleGuessed.targetCity.lon) ∧
      s'.score =
        exponentialDecayScore
          (haversineDistance sampleClick.lat sampleClick.lng
            sampleGuessed.targetCity.lat sampleGuessed.targetCity.lon) ∧
      s'.lockedIn = true :=
  lockInGuess_adds_score sampleGuessed sampleClick rfl rfl

/-! ## Invariant of the reachable states -/

theorem pointsTotal_append_empty (played : List Round) (k : Nat) :
    pointsTotal (played ++ List.replicate k emptyRound) = pointsTotal played := by
  induction played with
  | nil =>
    induction k with
    | zero => rfl
    | succ k ih => simpa [List.replicate_succ, pointsTotal, emptyRound] using ih
  | cons r older ih =>
    cases hr : r.score with
    | num points => simp [pointsTotal, hr, ih]
    | str t => simp [pointsTotal, hr, ih]

theorem dropLast_append_replicate_succ (played : List Round) (k : Nat) :
    (played ++ List.replicate (k + 1) emptyRound).dropLast =
      played ++ List.replicate k emptyRound := by
  rw [List.replicate_succ', ← List.append_assoc, List.dropLast_concat]

theorem inv_initialState (cities : List City) (i : Fin cities.length) :
    Inv 0 (initialState cities i) :=
  ⟨rfl, by decide, by simp [initialState], by simp, [], rfl, rfl, rfl⟩

theorem inv_resetGame (cities : List City) (i : Fin cities.length) (s : GameState) :
    Inv 0 (resetGame cities i s) :=
  ⟨rfl, by decide, by simp [resetGame], by simp, [], rfl, rfl, rfl⟩

theorem inv_handleMapClick {n : Nat} {s : GameState} (latlng : LatLng) (h : Inv n s) :
    Inv n (handleMapClick s latlng) := by
  unfold handleMapClick
  split
  · exact ⟨h.1, h.2, h.3, h.4, h.5⟩
  · exact h

theorem handleNewCity_running (cities : List City) (i : Fin cities.length) (s : GameState)
    (ho : s.gameOver = false) :
    handleNewCity cities i s =
      { s with targetCity := randomCity cities i, lockedIn := false, guess := none, score := 0 } := by
  simp [handleNewCity, ho]

theorem handleNewCity_over (cities : List City) (i : Fin cities.length) (s : GameState)
    (ho : s.gameOver = true) : handleNewCity cities i s = resetGame cities i s := by
  simp [handleNewCity, ho]

theorem inv_handleNewCity {n : Nat} {s : GameState} (cities : List City)
    (i : Fin cities.length) (h : Inv n s) (ho : s.gameOver = false) :
    Inv n (handleNewCity cities i s) := by
  have hn : n ≠ 10 := fun h10 => by
    have := h.gameOver_iff.2 h10
    simp [ho] at this
  rw [handleNewCity_running cities i s ho]
  exact ⟨h.1, h.2, h.3, fun h10 => absurd h10 hn, h.5⟩

theorem inv_lockInGuess {n : Nat} {s s' : GameState} (g : LatLng) (h : Inv n s)
    (hl : s.lockedIn = false) (hg : s.guess = some g) (hs : lockInGuess s = some s') :
    Inv (n + 1) s' := by
  have hn : n ≠ 10 := fun h10 => by
    have := h.locked_at_ten h10
    simp [hl] at this
  have hlt : n < 10 := lt_of_le_of_ne h.le_ten hn
  have ho : s.gameOver = false := by
    cases hgo : s.gameOver with
    | false => rfl
    | true => exact absurd (h.gameOver_iff.1 hgo) hn
  rw [lockInGuess_of_guess s g hg] at hs
  cases hs
  obtain ⟨played, hlen, hrounds, htotal⟩ := h.table
  refine ⟨?_, hlt, ?_, fun _ => rfl, ?_⟩
  · simp [h.roundsPlayed_eq]
  · simp only [h.roundsPlayed_eq, ho]
    constructor
    · intro hgo
      by_contra hne
      have : ¬ (n + 1 ≥ 10) := by omega
      simp [this] at hgo
    · intro h10
      have : n + 1 ≥ 10 := by omega
      simp [this]
  · refine ⟨{ city := s.targetCity.name,
               distance := toFixed0
                 (haversineDistance g.lat g.lng s.targetCity.lat s.targetCity.lon),
               score := .num (exponentialDecayScore
                 (haversineDistance g.lat g.lng s.targetCity.lat s.targetCity.lon)) } :: played,
      by simp [hlen], ?_, ?_⟩
    · have hk : 10 - n = (10 - (n + 1)) + 1 := by omega
      simp only [pushRound, hrounds]
      rw [hk, dropLast_append_replicate_succ]
      rfl
    · simp only [pointsTotal, htotal]

theorem inv_of_reach {cities : List City} {n : Nat} {s : GameState}
    (h : Reach cities n s) : Inv n s := by
  induction h with
  | init i => exact inv_initialState cities i
  | mapClick latlng _ ih => exact inv_handleMapClick latlng ih
  | lockIn g _ hl hg hs ih =>
    rw [lockInButton_enabled _ g hg hl] at hs
    exact inv_lockInGuess g ih hl hg hs
  | lockInDisabled _ hd hs ih =>
    rw [lockInButton_disabled _ hd] at hs
    cases hs
    exact ih
  | newCity i _ ho ih => exact inv_handleNewCity cities i ih ho
  | newCityOver i _ ho _ =>
    rw [handleNewCity_over cities i _ ho]
    exact inv_resetGame cities i _
  | reset i _ _ => exact inv_resetGame cities i _

theorem reach_playRound {cities : List City} {n : Nat} {s : GameState}
    (i : Fin cities.length) (latlng : LatLng) (h : Reach cities n s) (hn : n < 10) :
    Reach cities (n + 1) (playRound cities i latlng s) := by
  have hinv := inv_of_reach h
  have ho : s.gameOver = false := by
    cases hgo : s.gameOver with
    | false => rfl
    | true => exact absurd (hinv.gameOver_iff.1 hgo) (by omega)
  have h1 : Reach cities n (handleMapClick (handleNewCity cities i s) latlng) :=
    Reach.mapClick latlng (Reach.newCity i h ho)
  have hl : (handleMapClick (handleNewCity cities i s) latlng).lockedIn = false := by
    simp [handleMapClick, handleNewCity_running cities i s ho]
  have hg : (handleMapClick (handleNewCity cities i s) latlng).guess = some latlng := by
    simp [handleMapClick, handleNewCity_running cities i s ho]
  have hb := (lockInButton_enabled _ latlng hg hl).trans (lockInGuess_of_guess _ latlng hg)
  refine Reach.lockIn latlng h1 hl hg ?_
  rw [playRound, hb]
  rfl

theorem reach_iterate_playRound (cities : List City) (i j : Fin cities.length)
    (latlng : LatLng) (k : Nat) (hk : k ≤ 10) :
    Reach cities k ((playRound cities j latlng)^[k] (initialState cities i)) := by
  induction k with
  | zero => exact Reach.init i
  | succ k ih =>
    rw [Function.iterate_succ_apply']
    exact reach_playRound j latlng (ih (by omega)) (by omega)

theorem reach_sampleFinished : Reach sampleCities 10 sampleFinished :=
  reach_iterate_playRound sampleCities _ _ sampleClick 10 (le_refl 10)

theorem pushRound_of_length_ten (r : Round) (h : List Round) (hlen : h.length = 10) :
    pushRound r h = r :: h.take 9 := by
  simp [pushRound, List.dropLast_eq_take, hlen]

/-- A click on "Lock In Guess" always returns a state: nothing is thrown. -/
theorem lockInButton_isSome (s : GameState) : ∃ s', lockInButton s = some s' := by
  cases hg : s.guess with
  | none => exact ⟨s, lockInButton_disabled s (Or.inl hg)⟩
  | some g =>
    cases hl : s.lockedIn with
    | true => exact ⟨s, lockInButton_disabled s (Or.inr hl)⟩
    | false =>
      exact ⟨_, (lockInButton_enabled s g hg hl).trans (lockInGuess_of_guess s g hg)⟩

/-- The guard of `ClickHandler` is the guard of `handleMapClick`. -/
theorem clickHandler_eq_handleMapClick (s : GameState) (latlng : LatLng) :
    clickHandler s latlng = handleMapClick s latlng := by
  cases hl : s.lockedIn <;> simp [clickHandler, handleMapClick, hl]

/-- A click on "New City", enabled or not, leads to a reachable state. -/
theorem reach_newCityButton {cities : List City} {n : Nat} {s : GameState}
    (i : Fin cities.length) (h : Reach cities n s) :
    Reach cities n (newCityButton cities i s) := by
  unfold newCityButton
  split
  · exact h
  · rename_i hc
    have ho : s.gameOver = false := by
      cases hgo : s.gameOver with
      | false => rfl
      | true => simp [hgo] at hc
    exact Reach.newCity i h ho

/-- C2: when there is no pending guess or the guess is locked, a click on "Lock In Guess"
does nothing: the button is disabled, so the state, with every one of its fields, stays as
it is and nothing is thrown. (The handler `lockInGuess` has no guard of its own; called with
no guess it throws before it sets anything.) -/
theorem lockIn_rejected_keeps_state (s : GameState)
    (h : s.guess = none ∨ s.lockedIn = true) :
    lockInButton s = some s ∧ (s.guess = none → lockInGuess s = none) := by
  refine ⟨lockInButton_disabled s h, fun hg => ?_⟩
  simp only [lockInGuess, hg]

/-- Witness of C2 at a fresh game, where no guess is pending. -/
theorem lockIn_rejected_keeps_state_witness :
    lockInButton (initialState sampleCities ⟨0, by decide⟩) =
        some (initialState sampleCities ⟨0, by decide⟩) ∧
      ((initialState sampleCities ⟨0, by decide⟩).guess = none →
        lockInGuess (initialState sampleCities ⟨0, by decide⟩) = none) :=
  lockIn_rejected_keeps_state (initialState sampleCities ⟨0, by decide⟩) (Or.inl rfl)

/-- C3: in a state reached by map clicks, clicks on "Lock In Guess", `handleNewCity` and
`resetGame`, with `n` lock-ins made since the last reset, `roundsPlayed` is `n` and is at
most 10, and `gameOver` is true exactly when `roundsPlayed` is 10; after the 10th lock-in
`gameOver` is true and a further click on "Lock In Guess" leaves the state, and so
`roundsPlayed`, as it is. -/
theorem roundsPlayed_le_ten_gameOver_iff (cities : List City) (n : Nat) (s : GameState)
    (h : Reach cities n s) :
    s.roundsPlayed = n ∧ s.roundsPlayed ≤ 10 ∧
      (s.gameOver = true ↔ s.roundsPlayed = 10) ∧
      (n = 10 → s.gameOver = true ∧ lockInButton s = some s) := by
  have hinv := inv_of_reach h
  refine ⟨hinv.roundsPlayed_eq, ?_, ?_, fun h10 => ⟨hinv.gameOver_iff.2 h10, ?_⟩⟩
  · rw [hinv.roundsPlayed_eq]
    exact hinv.le_ten
  · rw [hinv.roundsPlayed_eq]
    exact hinv.gameOver_iff
  · exact lockInButton_disabled s (Or.inr (hinv.locked_at_ten h10))

/-- Witness of C3 at the state after ten rounds. -/
theorem roundsPlayed_le_ten_gameOver_iff_witness :
    sampleFinished.roundsPlayed = 10 ∧ sampleFinished.roundsPlayed ≤ 10 ∧
      (sampleFinished.gameOver = true ↔ sampleFinished.roundsPlayed = 10) ∧
      (10 = 10 → sampleFinished.gameOver = true ∧
        lockInButton sampleFinished = some sampleFinished) :=
  roundsPlayed_le_ten_gameOver_iff sampleCities 10 sampleFinished reach_sampleFinished

/-- C4: in a state reached by map clicks, clicks on "Lock In Guess", `handleNewCity` and
`resetGame`, `totalScore` is the sum of the points of the rows of the table, an empty row
adding nothing. -/
theorem totalScore_eq_pointsTotal (cities : List City) (n : Nat) (s : GameState)
    (h : Reach cities n s) : s.totalScore = pointsTotal s.rounds := by
  obtain ⟨played, _, hrounds, htotal⟩ := (inv_of_reach h).table
  rw [hrounds, pointsTotal_append_empty, htotal]

/-- Witness of C4 at the state after ten rounds. -/
theorem totalScore_eq_pointsTotal_witness :
    sampleFinished.totalScore = pointsTotal sampleFinished.rounds :=
  totalScore_eq_pointsTotal sampleCities 10 sampleFinished reach_sampleFinished

/-- C5: in a state whose table has 10 rows and that has a guess `g`, `lockInGuess` returns a
state whose table again has 10 rows: the first is the new row (name of the target city,
distance with 0 decimals, points) and rows 2 to 10 are the former rows 1 to 9 in their
order, the former last row being dropped. So every reachable state has a table of exactly
10 rows, and pushing 11 rows onto a table of 10 leaves the last 10 pushed, the first one
pushed being gone. -/
theorem lockInGuess_pushes_round (s : GameState) (g : LatLng)
    (hlen : s.rounds.length = 10) (hg : s.guess = some g) :
    (∃ s', lockInGuess s = some s' ∧ (s.lockedIn = false → lockInButton s = some s') ∧
      s'.rounds.length = 10 ∧
      s'.rounds.head? = some
        { city := s.targetCity.name
          distance := toFixed0
            (haversineDistance g.lat g.lng s.targetCity.lat s.targetCity.lon)
          score := .num (exponentialDecayScore
            (haversineDistance g.lat g.lng s.targetCity.lat s.targetCity.lon)) } ∧
      s'.rounds.tail = s.rounds.take 9 ∧
      (∀ k, k < 9 → s'.rounds[k + 1]? = s.rounds[k]?)) ∧
    (∀ (cities : List City) (n : Nat) (t : GameState),
      Reach cities n t → t.rounds.length = 10) ∧
    (∀ r1 r2 r3 r4 r5 r6 r7 r8 r9 r10 r11 : Round,
      pushRound r11 (pushRound r10 (pushRound r9 (pushRound r8 (pushRound r7 (pushRound r6
        (pushRound r5 (pushRound r4 (pushRound r3 (pushRound r2
          (pushRound r1 s.rounds)))))))))) =
        [r11, r10, r9, r8, r7, r6, r5, r4, r3, r2]) := by
  refine ⟨⟨_, lockInGuess_of_guess s g hg,
      fun hl => (lockInButton_enabled s g hg hl).trans (lockInGuess_of_guess s g hg),
      ?_, ?_, ?_, ?_⟩, ?_, ?_⟩
  · simp [pushRound_of_length_ten _ _ hlen, hlen]
  · simp [pushRound_of_length_ten _ _ hlen]
  · simp [pushRound_of_length_ten _ _ hlen]
  · intro k hk
    simp [pushRound_of_length_ten _ _ hlen, List.getElem?_take, hk]
  · intro cities n t ht
    obtain ⟨played, hp, hrounds, _⟩ := (inv_of_reach ht).table
    have := (inv_of_reach ht).le_ten
    rw [hrounds]
    simp [hp]
    omega
  · intro r1 r2 r3 r4 r5 r6 r7 r8 r9 r10 r11
    simp [pushRound, List.dropLast_eq_take, hlen]

/-- Witness of C5 at `sampleGuessed`. -/
theorem lockInGuess_pushes_round_witness :
    sampleGuessed.rounds.length = 10 ∧ sampleGuessed.guess = some sampleClick ∧
      ∃ s', lockInGuess sampleGuessed = some s' ∧ s'.rounds.length = 10 ∧
        s'.rounds.tail = sampleGuessed.rounds.take 9 :=
  ⟨rfl, rfl,
    let ⟨s', h1, _, h3, _, h5, _⟩ := (lockInGuess_pushes_round sampleGuessed sampleClick rfl rfl).1
    ⟨s', h1, h3, h5⟩⟩

/-- C6: from any state, `resetGame` returns the state of a fresh game: `roundsPlayed` 0,
`totalScore` 0, `gameOver` false, not locked, no guess, `score` 0, a table of 10 empty
rows, and a target taken from `cities`; it is the initial state with that target. -/
theorem resetGame_eq_initialState (cities : List City) (i : Fin cities.length)
    (s : GameState) :
    resetGame cities i s = initialState cities i ∧
      (resetGame cities i s).roundsPlayed = 0 ∧
      (resetGame cities i s).totalScore = 0 ∧
      (resetGame cities i s).gameOver = false ∧
      (resetGame cities i s).lockedIn = false ∧
      (resetGame cities i s).guess = none ∧
      (resetGame cities i s).score = 0 ∧
      (resetGame cities i s).rounds = List.replicate 10 emptyRound ∧
      (resetGame cities i s).targetCity ∈ cities :=
  ⟨rfl, rfl, rfl, rfl, rfl, rfl, rfl, rfl, List.get_mem cities i.1 i.2⟩

end UKMapGame
